import Mathlib
/-!
Shallow embedding of the ICE (internal combustion engine) controller from
`libraries/AP_ICEngine/AP_ICEngine.cpp` (rover build, `APM_BUILD_APMrover2`).

Machine integers: millisecond timestamps are `uint32_t` in the source; they are
modelled as `Nat` together with `u32sub`, the wrapping 32-bit subtraction the
source performs on them.  `float` parameters and sensor values are modelled as
exact rationals (`ℚ`).  Structure fields keep the source's member names.
-/
/-- Wrapping unsigned 32-bit subtraction, as performed by `uint32_t` arithmetic
in expressions such as `now_ms - last_sample_ms` in the source. -/
def u32sub (a b : Nat) : Nat :=
  ((a % 4294967296) + 4294967296 - (b % 4294967296)) % 4294967296
/-- Engine states, `enum ICE_State` of the source. -/
inductive IceStateE
  | ICE_OFF
  | ICE_START_HEIGHT_DELAY
  | ICE_START_DELAY_NO_IGNITION
  | ICE_START_DELAY
  | ICE_STARTING
  | ICE_RUNNING
deriving DecidableEq, Repr
/-- Ignition switch positions, `enum ICE_Ignition_State` of the source. -/
inductive IgnState
  | ICE_IGNITION_OFF
  | ICE_IGNITION_ACCESSORY
  | ICE_IGNITION_START_RUN
deriving DecidableEq, Repr
/-- Modelled from the spec: the numeric values of `ICE_Ignition_State` live in
the header, which is not under src/.  The spec maps `start_control` 0/1/2 to
OFF/ACCESSORY/START_RUN and the telemetry sends the state as that number. -/
def ignToCode : IgnState → Nat
  | .ICE_IGNITION_OFF => 0
  | .ICE_IGNITION_ACCESSORY => 1
  | .ICE_IGNITION_START_RUN => 2
/-- Transmission gear states, `MAV_ICE_TRANSMISSION_GEAR_STATE`. -/
inductive GearState
  | UNKNOWN
  | PARK
  | REVERSE
  | REVERSE_1
  | REVERSE_2
  | REVERSE_3
  | NEUTRAL
  | FORWARD
  | FORWARD_1
  | FORWARD_2
  | FORWARD_3
  | FORWARD_4
  | FORWARD_5
  | FORWARD_6
  | FORWARD_7
  | FORWARD_8
  | FORWARD_9
  | PWM_VALUE
deriving DecidableEq, Repr
/-- Configuration parameters (the `AP_Param` members of `AP_ICEngine`).
The OPTIONS bitmask is split into one Bool per documented bit (bit0..bit7).
Servo/RC channel presence and trim values, fixed for the run, live here too. -/
structure IceParams where
  enable : Bool
  start_chan : Int
  starter_time : ℚ
  starter_delay : ℚ
  rpm_threshold_running : Int
  rpm_instance : Int
  start_percent : Int
  idle_percent : Int
  rpm_threshold_starting : Int
  power_up_time : Int
  opt_arming_required_ignition : Bool
  opt_arming_required_start : Bool
  opt_keep_running_when_disarmed : Bool
  opt_auto_always_autostart : Bool
  opt_rpm_fail_has_timer : Bool
  opt_running_fail_force_stop : Bool
  opt_block_external_starter_cmds : Bool
  opt_auto_sets_gear_forward : Bool
  resarts_allowed : Int
  pwm_park_up : Int
  pwm_park_down : Int
  pwm_reverse_up : Int
  pwm_reverse_down : Int
  pwm_neutral_up : Int
  pwm_neutral_down : Int
  pwm_forward1_up : Int
  pwm_forward1_down : Int
  pwm_forward2_up : Int
  pwm_forward2_down : Int
  stop_duration : ℚ
  change_duration_per_posiiton : ℚ
  gear_fn_assigned : Bool
  ign_chan_exists : Bool
  starter_chan_exists : Bool
  ign_trim : Int
  starter_trim : Int
  temperature_pin : Int
  temperature_scaler : ℚ
  temperature_offset : ℚ
  temperature_function : Int
/-- External readings sampled during one tick: monotonic clock, arming state,
the start channel's `get_radio_in()` (`none` when the channel pointer is null),
its trim (used by `init`), auto-mode flag, RPM sensor, battery, analog voltage,
and the PWM read back for the gear servo in the UNKNOWN-gear branch. -/
structure TickInput where
  now : Nat
  armed : Bool
  rc_pwm : Option Nat
  rc_trim : Nat
  auto_mode_active : Bool
  rpm_present : Bool
  rpm_value : Int
  batt_healthy : Bool
  batt_pct : ℚ
  temp_voltage : ℚ
  gear_readback_trim : Int
/-- The `pending` member of `Gear_t`: target of an in-flight gear change and
the two phase timestamps (stop-the-vehicle wait, then physical shift). -/
structure PendingGear where
  state : GearState
  pwm : Int
  stop_vehicle_start_ms : Nat
  change_physical_gear_start_ms : Nat
  change_duration_total_ms : ℚ
deriving DecidableEq, Repr
/-- Modelled from the spec: `Gear_t::Pending_t::is_active` is declared in the
header, which is not under src/.  The spec's design notes describe the pending
change as two non-zero timestamps distinguishing the phases; the change is
active while either phase timestamp is set. -/
def PendingGear.is_active (p : PendingGear) : Bool :=
  decide (p.stop_vehicle_start_ms ≠ 0) || decide (p.change_physical_gear_start_ms ≠ 0)
/-- Modelled from the spec: `Gear_t::Pending_t::cancel` is declared in the
missing header; `init` uses it to discard any pending change, which clears the
two phase timestamps. -/
def PendingGear.cancel (p : PendingGear) : PendingGear :=
  { p with stop_vehicle_start_ms := 0, change_physical_gear_start_ms := 0 }
/-- The `Gear_t` runtime members: current recognised gear, the PWM being
emitted, the pending change, and the automission stamp. -/
structure GearT where
  state : GearState
  pwm_active : Int
  pending : PendingGear
  set_by_automission : Bool
deriving DecidableEq, Repr
/-- A value written to a servo output function: either a raw PWM
(`set_output_pwm`) or a scaled percentage (`set_output_scaled`). -/
inductive SrvOut
  | pwmv (v : Int)
  | scaled (v : Int)
deriving DecidableEq, Repr
/-- The controller's output channels: ignition, starter, gear servo. -/
structure Outputs where
  ignition : SrvOut
  starter : SrvOut
  gear_out : SrvOut
deriving DecidableEq, Repr
/-- The mutable members of `AP_ICEngine` relevant to the verified claims. -/
structure IceSys where
  state : IceStateE
  state_prev : IceStateE
  startControlSelect : IgnState
  starting_attempts : Nat
  state_change_timestamp_ms : Nat
  starter_start_time_ms : Nat
  starter_last_run_ms : Nat
  engine_power_up_wait_ms : Nat
  running_rpm_fail_timer_ms : Nat
  force_staying_in_DELAY_NO_IGNITION_duration_ms : Nat
  gear : GearT
  temperature_value : ℚ
  temperature_last_sample_ms : Nat
  temperature_source_acquired : Bool
  fuel_value : ℚ
  fuel_last_sample_ms : Nat
  run_once : Bool
  force_send_status : Bool
  brakeReleaseAllowedIn_Neutral_and_Disarmed : Bool
  outputs : Outputs
/-- Modelled from the spec: the members' initial values come from the header
and C++ zero-initialisation, which are not under src/.  The controller boots
with everything zeroed, state OFF, gear UNKNOWN and `run_once` false. -/
def bootSys : IceSys where
  state := .ICE_OFF
  state_prev := .ICE_OFF
  startControlSelect := .ICE_IGNITION_OFF
  starting_attempts := 0
  state_change_timestamp_ms := 0
  starter_start_time_ms := 0
  starter_last_run_ms := 0
  engine_power_up_wait_ms := 0
  running_rpm_fail_timer_ms := 0
  force_staying_in_DELAY_NO_IGNITION_duration_ms := 0
  gear := { state := .UNKNOWN, pwm_active := 0,
            pending := { state := .UNKNOWN, pwm := 0, stop_vehicle_start_ms := 0,
                         change_physical_gear_start_ms := 0, change_duration_total_ms := 0 },
            set_by_automission := false }
  temperature_value := 0
  temperature_last_sample_ms := 0
  temperature_source_acquired := false
  fuel_value := 0
  fuel_last_sample_ms := 0
  run_once := false
  force_send_status := false
  brakeReleaseAllowedIn_Neutral_and_Disarmed := false
  outputs := { ignition := .pwmv 0, starter := .pwmv 0, gear_out := .pwmv 0 }
/-- Source `AP_ICEngine::convertPwmToIgnitionState`: RC bands low/mid/high. -/
def convertPwmToIgnitionState (pwm : Nat) : IgnState :=
  if pwm ≤ 1300 then .ICE_IGNITION_OFF
  else if pwm ≥ 1700 then .ICE_IGNITION_START_RUN
  else .ICE_IGNITION_ACCESSORY
/-- Source `AP_ICEngine::constrain_pwm_with_direction`. -/
def constrain_pwm_with_direction (initial desired pwm_going_down pwm_going_up : Int) : Int :=
  if initial = desired then initial
  else if initial > desired then pwm_going_down
  else pwm_going_up
/-- Source `AP_ICEngine::Gear_t::get_position`: fixed per-gear position. -/
def gear_get_position : GearState → Int
  | .PARK => 1
  | .REVERSE | .REVERSE_1 | .REVERSE_2 | .REVERSE_3 => 2
  | .NEUTRAL => 3
  | .FORWARD | .FORWARD_1 => 4
  | .FORWARD_2 | .FORWARD_3 | .FORWARD_4 | .FORWARD_5 | .FORWARD_6
  | .FORWARD_7 | .FORWARD_8 | .FORWARD_9 => 5
  | .PWM_VALUE | .UNKNOWN => 0
/-- Modelled from the spec: `Gear_t::get_position_max` is declared in the
missing header; the spec says a change re-initiated mid-shift conservatively
uses the maximum position, 5. -/
def gear_get_position_max : Nat := 5
/-- Modelled from the spec: `Gear_t::is_forward` is declared in the missing
header; per the spec it recognises the FORWARD gear variants. -/
def gear_is_forward : GearState → Bool
  | .FORWARD | .FORWARD_1 | .FORWARD_2 | .FORWARD_3 | .FORWARD_4 | .FORWARD_5
  | .FORWARD_6 | .FORWARD_7 | .FORWARD_8 | .FORWARD_9 => true
  | _ => false
/-- Source `AP_ICEngine::convertPwmToGearState`: classify a PWM into a gear using each
gear's (down, up) band widened by a 20 PWM margin, preferring FORWARD_2,
FORWARD, NEUTRAL, REVERSE in that order, and PARK otherwise. -/
def convertPwmToGearState (p : IceParams) (pwm : Int) : GearState :=
  let margin : Int := 20
  if p.pwm_forward2_down ≤ p.pwm_forward2_up ∧ pwm ≤ p.pwm_forward2_up + margin ∧ p.pwm_forward2_down - margin ≤ pwm then
    .FORWARD_2
  else if p.pwm_forward2_down > p.pwm_forward2_up ∧ pwm ≤ p.pwm_forward2_down + margin ∧ p.pwm_forward2_up - margin ≤ pwm then
    .FORWARD_2
  else if p.pwm_forward1_down ≤ p.pwm_forward1_up ∧ pwm ≤ p.pwm_forward1_up + margin ∧ p.pwm_forward1_down - margin ≤ pwm then
    .FORWARD
  else if p.pwm_forward1_down > p.pwm_forward1_up ∧ pwm ≤ p.pwm_forward1_down + margin ∧ p.pwm_forward1_up - margin ≤ pwm then
    .FORWARD
  else if p.pwm_neutral_down ≤ p.pwm_neutral_up ∧ pwm ≤ p.pwm_neutral_up + margin ∧ p.pwm_neutral_down - margin ≤ pwm then
    .NEUTRAL
  else if p.pwm_neutral_down > p.pwm_neutral_up ∧ pwm ≤ p.pwm_neutral_down + margin ∧ p.pwm_neutral_up - margin ≤ pwm then
    .NEUTRAL
  else if p.pwm_reverse_down ≤ p.pwm_reverse_up ∧ pwm ≤ p.pwm_reverse_up + margin ∧ p.pwm_reverse_down - margin ≤ pwm then
    .REVERSE
  else if p.pwm_reverse_down > p.pwm_reverse_up ∧ pwm ≤ p.pwm_reverse_down + margin ∧ p.pwm_reverse_up - margin ≤ pwm then
    .REVERSE
  else
    .PARK
/-- Source `AP_ICEngine::update_fuel`.  Battery instance 1's health and remaining
percentage are tick inputs.  The staleness test reproduces the source's
unsigned subtraction `fuel.last_sample_ms - now_ms > 5000` verbatim. -/
def update_fuel (_p : IceParams) (i : TickInput) (s : IceSys) : IceSys :=
  if i.batt_healthy = false then { s with fuel_value := -1 }
  else
    let v0 : ℚ := if s.fuel_last_sample_ms = 0 ∨ u32sub s.fuel_last_sample_ms i.now > 5000 then i.batt_pct else s.fuel_value
    { s with fuel_value := (1/10 : ℚ) * v0 + (9/10 : ℚ) * i.batt_pct, fuel_last_sample_ms := i.now }
/-- The temperature transfer function selected by `TEMP_FUNC`; `none` when the
sample must be dropped (hyperbolic with zero denominator, or unknown mode). -/
def temp_transfer (p : IceParams) (v : ℚ) : Option ℚ :=
  if p.temperature_function = 0 then some ((v - p.temperature_offset) * p.temperature_scaler)
  else if p.temperature_function = 1 then some ((p.temperature_offset - v) * p.temperature_scaler)
  else if p.temperature_function = 2 then
    (if v - p.temperature_offset = 0 then none else some (p.temperature_scaler / (v - p.temperature_offset)))
  else none
/-- Source `AP_ICEngine::update_temperature`.  The first call only acquires the ADC
handle; the voltage actually read (ratiometric or absolute) is a tick input.
The `isinf` rejection is vacuous over exact rationals.  The staleness test
reproduces the source's `temperature.last_sample_ms - now_ms > 5000`. -/
def update_temperature (p : IceParams) (i : TickInput) (s : IceSys) : IceSys :=
  if s.temperature_source_acquired = false then { s with temperature_source_acquired := true }
  else if p.temperature_pin ≤ 0 then
    { s with temperature_value := 0, temperature_last_sample_ms := 0 }
  else
    match temp_transfer p i.temp_voltage with
    | none => s
    | some t =>
      let v0 : ℚ := if s.temperature_last_sample_ms = 0 ∨ u32sub s.temperature_last_sample_ms i.now > 5000 then t else s.temperature_value
      { s with temperature_value := (1/10 : ℚ) * v0 + (9/10 : ℚ) * t, temperature_last_sample_ms := i.now }
/-- Arming gate for ignition: armed, or bit0 (arming required for ignition)
clear. -/
def arming_OK_to_ign (p : IceParams) (armed : Bool) : Bool :=
  armed || !p.opt_arming_required_ignition
/-- Arming gate for starting or running: armed, or bit1 clear. -/
def arming_OK_to_start (p : IceParams) (armed : Bool) : Bool :=
  armed || !p.opt_arming_required_start
/-- The `system_should_be_off` condition of `determine_state`. -/
def sso (p : IceParams) (armed : Bool) (intent : IgnState) : Bool :=
  (intent == .ICE_IGNITION_OFF) || !(arming_OK_to_ign p armed)
/-- The `current_rpm` local of `determine_state`: -1 unless an RPM instance is
configured and the sensor backend exists. -/
def current_rpm_of (p : IceParams) (i : TickInput) : Int :=
  if 0 < p.rpm_instance ∧ i.rpm_present = true then i.rpm_value else -1
/-- Ignition-intent resolution at the top of `determine_state`: forced to
START_RUN in auto mode with OPTIONS bit3, otherwise decoded from the start
channel when it exists. -/
def ds_resolve (p : IceParams) (i : TickInput) (s : IceSys) : IceSys :=
  if i.auto_mode_active = true ∧ p.opt_auto_always_autostart = true then
    if s.startControlSelect ≠ IgnState.ICE_IGNITION_START_RUN then
      { s with startControlSelect := .ICE_IGNITION_START_RUN, force_send_status := true }
    else s
  else
    match i.rc_pwm with
    | some pwm => { s with startControlSelect := convertPwmToIgnitionState pwm }
    | none => s
/-- The forced-off gate of `determine_state`: `if (system_should_be_off)
state = ICE_OFF`. -/
def ds_gate (p : IceParams) (i : TickInput) (s : IceSys) : IceSys :=
  if sso p i.armed s.startControlSelect then { s with state := .ICE_OFF } else s
/-- The per-state `switch` of `determine_state` (rover build, so
`ICE_START_HEIGHT_DELAY` falls into the `default: state = ICE_OFF` arm). -/
def ds_switch (p : IceParams) (i : TickInput) (s : IceSys) : IceSys :=
  match s.state with
  | .ICE_START_HEIGHT_DELAY => { s with state := .ICE_OFF }
  | .ICE_OFF =>
      if sso p i.armed s.startControlSelect = false ∧
         s.startControlSelect ≠ IgnState.ICE_IGNITION_OFF then
        { s with starting_attempts := 0, state := .ICE_START_DELAY }
      else
        { s with starting_attempts := 0 }
  | .ICE_START_DELAY_NO_IGNITION =>
      if 0 < s.force_staying_in_DELAY_NO_IGNITION_duration_ms ∧
         u32sub i.now s.state_change_timestamp_ms < s.force_staying_in_DELAY_NO_IGNITION_duration_ms then
        s
      else
        { s with force_staying_in_DELAY_NO_IGNITION_duration_ms := 0 }
  | .ICE_START_DELAY =>
      if s.startControlSelect ≠ IgnState.ICE_IGNITION_START_RUN ∨ arming_OK_to_start p i.armed = false then
        s
      else if 0 ≤ p.resarts_allowed ∧ p.resarts_allowed < (s.starting_attempts : Int) then
        s
      else if 0 < p.power_up_time ∧ s.engine_power_up_wait_ms = 0 then
        { s with engine_power_up_wait_ms := i.now }
      else if 0 < p.power_up_time ∧ u32sub i.now s.engine_power_up_wait_ms < p.power_up_time.toNat * 1000 then
        s
      else if p.starter_delay ≤ 0 then
        { s with state := .ICE_STARTING }
      else if s.starter_last_run_ms = 0 ∨ (p.starter_delay * 1000 : ℚ) ≤ (u32sub i.now s.starter_last_run_ms : ℚ) then
        { s with state := .ICE_STARTING }
      else
        s
  | .ICE_STARTING =>
      let s1 := { s with engine_power_up_wait_ms := 0 }
      let s2 := if s1.starter_start_time_ms = 0 then
                  { s1 with starting_attempts := s1.starting_attempts + 1, starter_start_time_ms := i.now }
                else s1
      let s3 := { s2 with starter_last_run_ms := i.now }
      if arming_OK_to_start p i.armed = false then
        { s3 with state := .ICE_START_DELAY }
      else if 0 < p.rpm_threshold_starting ∧ p.rpm_threshold_starting ≤ current_rpm_of p i then
        { s3 with state := .ICE_RUNNING }
      else if (p.starter_time * 1000 : ℚ) ≤ (u32sub i.now s3.starter_start_time_ms : ℚ) then
        if p.rpm_threshold_starting ≤ 0 then
          { s3 with state := .ICE_RUNNING }
        else if current_rpm_of p i < 0 then
          { s3 with state := .ICE_OFF }
        else if current_rpm_of p i < p.rpm_threshold_starting then
          { s3 with state := .ICE_START_DELAY }
        else s3
      else s3
  | .ICE_RUNNING =>
      let s1 := { s with engine_power_up_wait_ms := 0 }
      if i.armed = false ∧ p.idle_percent ≤ 0 ∧ p.opt_keep_running_when_disarmed = false then
        { s1 with state := .ICE_OFF }
      else if 0 < p.rpm_threshold_running ∧ 0 ≤ current_rpm_of p i ∧ current_rpm_of p i < p.rpm_threshold_running then
        let s2 := if s1.running_rpm_fail_timer_ms = 0 then
                    { s1 with running_rpm_fail_timer_ms := i.now }
                  else s1
        if p.opt_rpm_fail_has_timer = true ∧ u32sub i.now s2.running_rpm_fail_timer_ms ≤ 500 then
          s2
        else if p.opt_running_fail_force_stop = true then
          { s2 with state := .ICE_START_DELAY_NO_IGNITION, force_staying_in_DELAY_NO_IGNITION_duration_ms := 3000 }
        else
          { s2 with state := .ICE_START_DELAY }
      else
        { s1 with running_rpm_fail_timer_ms := 0 }
/-- The tail of `determine_state`: clear `starter_start_time_ms` outside
STARTING, stamp `state_change_timestamp_ms` on a state change, record
`state_prev`. -/
def ds_finalize (i : TickInput) (s : IceSys) : IceSys :=
  let s1 := if s.state ≠ IceStateE.ICE_STARTING then { s with starter_start_time_ms := 0 } else s
  let s2 := if s1.state_prev ≠ s1.state then { s1 with state_change_timestamp_ms := i.now } else s1
  { s2 with state_prev := s2.state }
/-- Source `AP_ICEngine::determine_state`: intent resolution, forced-off gate, the
per-state switch, then the finalisation block. -/
def determine_state (p : IceParams) (i : TickInput) (s : IceSys) : IceSys :=
  ds_finalize i (ds_switch p i (ds_gate p i (ds_resolve p i s)))
/-- Source `AP_ICEngine::set_ice_transmission_state`: validate/normalise the target,
no-op when it equals the current or already-pending gear, otherwise record the
pending target and (re)start the stop-the-vehicle phase.  Returns the updated
system and the boolean result of the source function.  Note that
`change_physical_gear_start_ms` is not cleared here. -/
def set_ice_transmission_state (p : IceParams) (now : Nat) (gearState : GearState)
    (pwm_value : Int) (s : IceSys) : IceSys × Bool :=
  let res : Option (GearState × Int) :=
    match gearState with
    | .PARK => some (.PARK, constrain_pwm_with_direction s.gear.pwm_active
        (Int.tdiv (p.pwm_park_down + p.pwm_park_up) 2) p.pwm_park_down p.pwm_park_up)
    | .REVERSE | .REVERSE_1 => some (.REVERSE, constrain_pwm_with_direction s.gear.pwm_active
        (Int.tdiv (p.pwm_reverse_down + p.pwm_reverse_up) 2) p.pwm_reverse_down p.pwm_reverse_up)
    | .NEUTRAL => some (.NEUTRAL, constrain_pwm_with_direction s.gear.pwm_active
        (Int.tdiv (p.pwm_neutral_down + p.pwm_neutral_up) 2) p.pwm_neutral_down p.pwm_neutral_up)
    | .FORWARD | .FORWARD_1 => some (.FORWARD, constrain_pwm_with_direction s.gear.pwm_active
        (Int.tdiv (p.pwm_forward1_down + p.pwm_forward1_up) 2) p.pwm_forward1_down p.pwm_forward1_up)
    | .FORWARD_2 => some (.FORWARD_2, constrain_pwm_with_direction s.gear.pwm_active
        (Int.tdiv (p.pwm_forward2_down + p.pwm_forward2_up) 2) p.pwm_forward2_down p.pwm_forward2_up)
    | .PWM_VALUE => some (.PWM_VALUE, pwm_value)
    | _ => none
  match res with
  | none => (s, false)
  | some (gs, pendingPwm) =>
    if gs ≠ GearState.PWM_VALUE ∧
       (s.gear.state = gs ∨ (s.gear.pending.is_active = true ∧ s.gear.pending.state = gs)) then
      (s, true)
    else
      let pend0 := { s.gear.pending with state := gs, pwm := pendingPwm }
      let total_steps : Nat :=
        if pend0.is_active = false then
          max 1 (Int.natAbs (gear_get_position s.gear.state - gear_get_position gs))
        else gear_get_position_max
      let pend1 := { pend0 with change_duration_total_ms := p.change_duration_per_posiiton * 1000 * (total_steps : ℚ), stop_vehicle_start_ms := now }
      ({ s with gear := { s.gear with pending := pend1 }, force_send_status := true }, true)
/-- Source `AP_ICEngine::update_gear`: advance the stop-wait phase, then the physical
shift phase, else possibly auto-select FORWARD in auto mode.  The negative
parameter sanitisation (`set_and_save`) is modelled by substituting the saved
replacement value for this tick. -/
def update_gear (p : IceParams) (i : TickInput) (s : IceSys) : IceSys :=
  let stop_dur : ℚ := if p.stop_duration < 0 then 0 else p.stop_duration
  if 0 < s.gear.pending.stop_vehicle_start_ms then
    if (stop_dur * 1000 : ℚ) ≤ (u32sub i.now s.gear.pending.stop_vehicle_start_ms : ℚ) then
      let pend := { s.gear.pending with change_physical_gear_start_ms := i.now, stop_vehicle_start_ms := 0 }
      let g := { s.gear with pwm_active := s.gear.pending.pwm, state := s.gear.pending.state, pending := pend }
      { s with gear := g, force_send_status := true }
    else s
  else if 0 < s.gear.pending.change_physical_gear_start_ms then
    if s.gear.pending.change_duration_total_ms ≤ (u32sub i.now s.gear.pending.change_physical_gear_start_ms : ℚ) then
      let g := { s.gear with pending := { s.gear.pending with change_physical_gear_start_ms := 0 } }
      { s with gear := g, force_send_status := true }
    else s
  else if i.auto_mode_active = true ∧ s.state = IceStateE.ICE_RUNNING ∧
          p.opt_auto_sets_gear_forward = true ∧ s.gear.set_by_automission = false ∧
          gear_is_forward s.gear.state = false ∧ s.gear.pending.is_active = false then
    (set_ice_transmission_state p i.now .FORWARD 0 s).1
  else s
/-- The gear-servo block at the top of `AP_ICEngine::set_output_channels`:
invalidate the gear when no servo function is assigned, auto-detect from the
trim read-back when the gear is UNKNOWN, else emit the active PWM. -/
def soc_gear_block (p : IceParams) (i : TickInput) (s : IceSys) : IceSys :=
  if p.gear_fn_assigned = false then
    { s with gear := { s.gear with pwm_active := 0, state := .UNKNOWN } }
  else if s.gear.state = GearState.UNKNOWN then
    let g := { s.gear with pwm_active := i.gear_readback_trim, state := convertPwmToGearState p i.gear_readback_trim }
    { s with gear := g, outputs := { s.outputs with gear_out := .pwmv i.gear_readback_trim } }
  else
    { s with outputs := { s.outputs with gear_out := .pwmv s.gear.pwm_active } }
/-- The per-state ignition/starter mapping at the bottom of
`AP_ICEngine::set_output_channels`. -/
def soc_ign_starter (p : IceParams) (st : IceStateE) (o : Outputs) : Outputs :=
  match st with
  | .ICE_OFF | .ICE_START_DELAY_NO_IGNITION =>
      let o1 := if p.ign_chan_exists = true then { o with ignition := .pwmv p.ign_trim } else o
      if p.starter_chan_exists = true then { o1 with starter := .pwmv p.starter_trim } else o1
  | .ICE_START_HEIGHT_DELAY | .ICE_START_DELAY =>
      { o with ignition := .scaled 100, starter := .scaled 0 }
  | .ICE_STARTING =>
      { o with ignition := .scaled 100, starter := .scaled 100 }
  | .ICE_RUNNING =>
      { o with ignition := .scaled 100, starter := .scaled 0 }
/-- Source `AP_ICEngine::set_output_channels`: emit the gear servo PWM, then — unless
a gear change is in flight with the engine not OFF — drive ignition and
starter from the engine state. -/
def set_output_channels (p : IceParams) (i : TickInput) (s : IceSys) : IceSys :=
  let s1 := soc_gear_block p i s
  if s1.gear.pending.is_active = true ∧ s1.state ≠ IceStateE.ICE_OFF then s1
  else { s1 with outputs := soc_ign_starter p s1.state s1.outputs }
/-- Source `AP_ICEngine::init`: drive the outputs once, seed `startControlSelect` from
the start channel's trim (OFF when the channel is absent) and cancel any
pending gear change.  The master-output-enable GPIO write is external I/O. -/
def ice_init (p : IceParams) (i : TickInput) (s : IceSys) : IceSys :=
  let s1 := set_output_channels p i s
  let s2 := match i.rc_pwm with
    | some _ => { s1 with startControlSelect := convertPwmToIgnitionState i.rc_trim }
    | none => { s1 with startControlSelect := .ICE_IGNITION_OFF }
  { s2 with gear := { s2.gear with pending := s2.gear.pending.cancel } }
/-- Source `AP_ICEngine::update`: one controller tick.  Telemetry (`send_status`) has
no effect on the modelled state and is not included. -/
def update (p : IceParams) (i : TickInput) (s : IceSys) : IceSys :=
  if p.enable = false then
    let s1 := { s with state := IceStateE.ICE_OFF }
    if s1.run_once = true then ice_init p i { s1 with run_once := false } else s1
  else
    let s1 := if s.run_once = false then ice_init p i { s with run_once := true } else s
    let s2 := update_temperature p i s1
    let s3 := update_fuel p i s2
    let s4 := determine_state p i s3
    let s5 := update_gear p i s4
    set_output_channels p i s5
/-- The RC gate of `AP_ICEngine::engine_control`, kept verbatim from the
source: `convertPwmToIgnitionState(c->get_radio_in() == ICE_IGNITION_OFF)`
compares the PWM against the OFF enum value (0) inside the call, and the
resulting ignition state is used as the branch condition (true iff nonzero). -/
def engine_control_rc_gate_rejects (p : IceParams) (auto_mode_active : Bool)
    (rc_pwm : Option Nat) : Bool :=
  if (auto_mode_active = true ∧ p.opt_auto_always_autostart = true) then false
  else
    match rc_pwm with
    | some radio_in =>
        ignToCode (convertPwmToIgnitionState (if radio_in = ignToCode .ICE_IGNITION_OFF then 1 else 0)) ≠ 0
    | none => false
/-- Modelled from the spec: the numeric encoding of the MAVLink gear enum is
not under src/.  Per the spec, `engine_control` invokes `set_gear` exactly when
`gear_state` decodes to a concrete gear (not UNKNOWN or PWM_VALUE); the
source's `> 0` and `< ENUM_END` range checks are the numeric form of this. -/
def engine_control_gear_guard (g : GearState) : Bool :=
  decide (g ≠ GearState.UNKNOWN) && decide (g ≠ GearState.PWM_VALUE)
/-- The `start_control` mapping block of `engine_control`: 0/1/2 select the
ignition intent and stamp the automission flag; other values change nothing. -/
def engine_control_intent (start_control : ℚ) (being_set_by_auto_mission : Bool)
    (s : IceSys) : IceSys :=
  if start_control = (0 : ℚ) then
    { s with startControlSelect := .ICE_IGNITION_OFF, force_send_status := true, gear := { s.gear with set_by_automission := being_set_by_auto_mission } }
  else if start_control = (1 : ℚ) then
    { s with startControlSelect := .ICE_IGNITION_ACCESSORY, force_send_status := true, gear := { s.gear with set_by_automission := being_set_by_auto_mission } }
  else if start_control = (2 : ℚ) then
    { s with startControlSelect := .ICE_IGNITION_START_RUN, force_send_status := true, gear := { s.gear with set_by_automission := being_set_by_auto_mission } }
  else s
/-- The gear-request block of `engine_control`: when the guard passes, invoke
`set_ice_transmission_state` and, on success, stamp the automission flag. -/
def engine_control_gear (p : IceParams) (now : Nat) (gear_state : GearState)
    (being_set_by_auto_mission : Bool) (s : IceSys) : IceSys :=
  if engine_control_gear_guard gear_state = true then
    let r := set_ice_transmission_state p now gear_state 0 s
    if r.2 = true then
      { r.1 with force_send_status := true, gear := { r.1.gear with set_by_automission := being_set_by_auto_mission } }
    else r.1
  else s
/-- Source `AP_ICEngine::engine_control` (rover build, so the `height_delay` branch is
compiled out).  `cold_start` is unused by the source.  Returns the updated
system and the boolean result. -/
def engine_control (p : IceParams) (now : Nat) (auto_mode_active : Bool)
    (rc_pwm : Option Nat) (start_control _cold_start _height_delay : ℚ)
    (gear_state : GearState) (being_set_by_auto_mission : Bool) (s : IceSys) : IceSys × Bool :=
  if p.opt_block_external_starter_cmds = true then (s, false)
  else if engine_control_rc_gate_rejects p auto_mode_active rc_pwm = true then (s, false)
  else
    (engine_control_gear p now gear_state being_set_by_auto_mission
      (engine_control_intent start_control being_set_by_auto_mission s), true)
/-- Source `AP_ICEngine::brake_override`: shape the requested brake percentage from
gear, arming and the pending gear change; returns the new percentage and
whether it was altered. -/
def brake_override (p : IceParams) (armed : Bool) (s : IceSys)
    (brake_percent desired_speed : ℚ) (speed_is_valid : Bool) (speed : ℚ) : ℚ × Bool :=
  if p.enable = false then (brake_percent, false)
  else
    let b1 : ℚ :=
      match s.gear.state with
      | .REVERSE | .REVERSE_1 | .REVERSE_2 | .REVERSE_3
      | .FORWARD | .FORWARD_1 | .FORWARD_2 | .FORWARD_3 | .FORWARD_4
      | .FORWARD_5 | .FORWARD_6 | .FORWARD_7 | .FORWARD_8 | .FORWARD_9 =>
          if armed = false then 100
          else if desired_speed = 0 ∧ speed_is_valid = true ∧ |speed| < (1/10 : ℚ) then 100
          else brake_percent
      | .NEUTRAL =>
          if armed = false then 100
          else if s.brakeReleaseAllowedIn_Neutral_and_Disarmed = true then 0
          else brake_percent
      | .UNKNOWN | .PARK | .PWM_VALUE => brake_percent
    let b2 : ℚ := if s.gear.pending.is_active = true then 100 else b1
    (b2, decide (¬ b2 = brake_percent))
/-- The ignition intent `determine_state` resolves, as a function of the value
of `startControlSelect` it starts from. -/
def resolve_intent_val (p : IceParams) (i : TickInput) (prev : IgnState) : IgnState :=
  if i.auto_mode_active = true ∧ p.opt_auto_always_autostart = true then .ICE_IGNITION_START_RUN
  else
    match i.rc_pwm with
    | some pwm => convertPwmToIgnitionState pwm
    | none => prev
/-- The value `get_radio_in()` style resolution starts from: the prior
`startControlSelect`, except that on the first enabled tick `init` has just
re-seeded it from the channel trim (OFF when the channel is absent). -/
def startControl_seen (p : IceParams) (i : TickInput) (s : IceSys) : IgnState :=
  if p.enable = true ∧ s.run_once = false then
    (match i.rc_pwm with
     | some _ => convertPwmToIgnitionState i.rc_trim
     | none => IgnState.ICE_IGNITION_OFF)
  else s.startControlSelect
/-- The ignition intent resolved by a tick of `update` from pre-tick state `s`:
forced START_RUN in always-autostart auto mode, else the RC decode, else the
retained value. -/
def resolved_intent (p : IceParams) (i : TickInput) (s : IceSys) : IgnState :=
  resolve_intent_val p i (startControl_seen p i s)
/-- The gears an `engine_control` gear request can actually commit: the guard
must pass (a concrete gear) and `set_ice_transmission_state` must handle it. -/
def settable_gear : GearState → Bool
  | .PARK | .REVERSE | .REVERSE_1 | .NEUTRAL | .FORWARD | .FORWARD_1 | .FORWARD_2 => true
  | _ => false
/-- Two system states agreeing on the fields the restart-budget argument
tracks: engine state, attempt counter, starter engagement timestamp. -/
def sameCore (a b : IceSys) : Prop :=
  a.state = b.state ∧ a.starting_attempts = b.starting_attempts ∧
  a.starter_start_time_ms = b.starter_start_time_ms
/-- The restart-budget invariant: with a non-negative RESTART_CNT, the attempt
counter never exceeds RESTART_CNT + 1, and on a STARTING tick that is about to
count a new attempt (timestamp still clear) it is at most RESTART_CNT. -/
def C4inv (p : IceParams) (s : IceSys) : Prop :=
  0 ≤ p.resarts_allowed →
    ((s.starting_attempts : Int) ≤ p.resarts_allowed + 1 ∧
     (s.state = IceStateE.ICE_STARTING ∧ s.starter_start_time_ms = 0 →
        (s.starting_attempts : Int) ≤ p.resarts_allowed))
/-- The externally driven evolutions of the controller: boot, a tick of
`update` at a positive millisecond clock, an `engine_control` command, or a
direct `set_ice_transmission_state` request. -/
inductive Reachable (p : IceParams) : IceSys → Prop
  | boot : Reachable p bootSys
  | tick {s : IceSys} (i : TickInput) (hnow : 0 < i.now) :
      Reachable p s → Reachable p (update p i s)
  | cmd {s : IceSys} (now : Nat) (auto : Bool) (rc : Option Nat)
      (sc cs hd : ℚ) (g : GearState) (m : Bool) :
      Reachable p s → Reachable p (engine_control p now auto rc sc cs hd g m s).1
  | setgear {s : IceSys} (now : Nat) (g : GearState) (pv : Int) :
      Reachable p s → Reachable p (set_ice_transmission_state p now g pv s).1


/-- A concrete test configuration: controller enabled, start channel 1, RPM
instance 1 with start-success threshold 300, 3 s starter, 2 s retry delay,
default gear PWM table, unlimited restarts, no OPTIONS bits set. -/
def pX : IceParams where
  enable := true
  start_chan := 1
  starter_time := 3
  starter_delay := 2
  rpm_threshold_running := 100
  rpm_instance := 1
  start_percent := 5
  idle_percent := 0
  rpm_threshold_starting := 300
  power_up_time := 0
  opt_arming_required_ignition := false
  opt_arming_required_start := false
  opt_keep_running_when_disarmed := true
  opt_auto_always_autostart := false
  opt_rpm_fail_has_timer := false
  opt_running_fail_force_stop := false
  opt_block_external_starter_cmds := false
  opt_auto_sets_gear_forward := false
  resarts_allowed := -1
  pwm_park_up := 1000
  pwm_park_down := 1000
  pwm_reverse_up := 1200
  pwm_reverse_down := 1200
  pwm_neutral_up := 1295
  pwm_neutral_down := 1295
  pwm_forward1_up := 1425
  pwm_forward1_down := 1425
  pwm_forward2_up := 1600
  pwm_forward2_down := 1600
  stop_duration := 0
  change_duration_per_posiiton := 3/2
  gear_fn_assigned := true
  ign_chan_exists := true
  starter_chan_exists := true
  ign_trim := 900
  starter_trim := 900
  temperature_pin := -1
  temperature_scaler := 1
  temperature_offset := 0
  temperature_function := 0

/-- The test configuration with a restart budget of 1. -/
def pC4x : IceParams := { pX with resarts_allowed := 1 }

/-- A tick input: armed, start switch high (1800), RPM sensor present with the
given reading, battery unhealthy, gear servo trim 1000. -/
def inX (now : Nat) (rpm : Int) : TickInput where
  now := now
  armed := true
  rc_pwm := some 1800
  rc_trim := 1500
  auto_mode_active := false
  rpm_present := true
  rpm_value := rpm
  batt_healthy := false
  batt_pct := 0
  temp_voltage := 0
  gear_readback_trim := 1000

/-- A tick input with the start switch low (1000, decoding to OFF). -/
def inOff : TickInput := { inX 1000 0 with rc_pwm := some 1000 }

/-- An idle pending-gear record. -/
def zeroPending : PendingGear where
  state := .UNKNOWN
  pwm := 0
  stop_vehicle_start_ms := 0
  change_physical_gear_start_ms := 0
  change_duration_total_ms := 0

/-- A recognised PARK gear with no change in flight. -/
def gearPark : GearT where
  state := .PARK
  pwm_active := 1000
  pending := zeroPending
  set_by_automission := false

/-- A settled state in START_DELAY_NO_IGNITION: the failure dwell started at
10 s, one attempt counted, last starter run at 5 s. -/
def sDelayNoIgn : IceSys :=
  { bootSys with
      state := .ICE_START_DELAY_NO_IGNITION
      state_prev := .ICE_START_DELAY_NO_IGNITION
      run_once := true
      starting_attempts := 1
      state_change_timestamp_ms := 10000
      starter_last_run_ms := 5000
      force_staying_in_DELAY_NO_IGNITION_duration_ms := 3000
      gear := gearPark
      temperature_source_acquired := true }

/-- The same situation but in the plain START_DELAY state. -/
def sDelayPlain : IceSys :=
  { sDelayNoIgn with state := .ICE_START_DELAY, state_prev := .ICE_START_DELAY }

/-- START_DELAY with the attempt counter already at 2. -/
def sDelayAtt2 : IceSys := { sDelayPlain with starting_attempts := 2 }

/-- NEUTRAL gear with the brake-release flag set. -/
def sNeutral : IceSys :=
  { bootSys with
      run_once := true
      gear := { gearPark with state := .NEUTRAL }
      brakeReleaseAllowedIn_Neutral_and_Disarmed := true }

/-- A state whose fuel filter last sampled at t = 1000 ms with value 10. -/
def sFuel : IceSys :=
  { bootSys with run_once := true, fuel_value := 10, fuel_last_sample_ms := 1000 }

/-- A steady STARTING state: starter engaged at t = 2600 ms. -/
def sStarting : IceSys :=
  { bootSys with
      state := .ICE_STARTING
      state_prev := .ICE_STARTING
      run_once := true
      starting_attempts := 1
      starter_start_time_ms := 2600
      starter_last_run_ms := 2600
      gear := gearPark
      temperature_source_acquired := true }

/-- An idle settled state in PARK. -/
def sPark : IceSys :=
  { bootSys with run_once := true, gear := gearPark, temperature_source_acquired := true }

/-- Tick 1 from boot at t = 1000 ms: OFF moves to START_DELAY. -/
def c3_s1 : IceSys := update pX (inX 1000 0) bootSys

/-- Tick 2 at t = 2000 ms: START_DELAY moves to STARTING, starter driven high. -/
def c3_s2 : IceSys := update pX (inX 2000 0) c3_s1

/-- Between ticks, an external engine-control command requests FORWARD gear,
starting the stop-wait phase at t = 2500 ms. -/
def c3_s2b : IceSys := (engine_control pX 2500 false (some 1800) 3 0 0 .FORWARD false c3_s2).1

/-- Tick 3 at t = 2600 ms with 350 rpm: STARTING exits to RUNNING while the
physical gear shift starts; the early return skips the starter update. -/
def c3_s3 : IceSys := update pX (inX 2600 350) c3_s2b

/-- A set-gear command from PARK to FORWARD at t = 1000 ms. -/
def c8_s1 : IceSys := (set_ice_transmission_state pX 1000 .FORWARD 0 sPark).1

/-- The gear tick at t = 2000 ms commits the change and starts the physical
shift phase. -/
def c8_s2 : IceSys := update_gear pX (inX 2000 0) c8_s1

/-- A new set-gear command to REVERSE while the shift is still in flight. -/
def c8_s3 : IceSys := (set_ice_transmission_state pX 2500 .REVERSE 0 c8_s2).1

lemma update_temperature_state (p : IceParams) (i : TickInput) (s : IceSys) :
    (update_temperature p i s).state = s.state := by
  unfold update_temperature
  repeat' split
  all_goals rfl
lemma update_temperature_select (p : IceParams) (i : TickInput) (s : IceSys) :
    (update_temperature p i s).startControlSelect = s.startControlSelect := by
  unfold update_temperature
  repeat' split
  all_goals rfl
lemma update_fuel_state (p : IceParams) (i : TickInput) (s : IceSys) :
    (update_fuel p i s).state = s.state := by
  unfold update_fuel
  repeat' split
  all_goals rfl
lemma update_fuel_select (p : IceParams) (i : TickInput) (s : IceSys) :
    (update_fuel p i s).startControlSelect = s.startControlSelect := by
  unfold update_fuel
  repeat' split
  all_goals rfl
lemma soc_gear_block_facts (p : IceParams) (i : TickInput) (s : IceSys) :
    ((soc_gear_block p i s).state = s.state ∧
     (soc_gear_block p i s).gear.pending = s.gear.pending) ∧
    ((soc_gear_block p i s).outputs.starter = s.outputs.starter ∧
     (soc_gear_block p i s).outputs.ignition = s.outputs.ignition) ∧
    ((soc_gear_block p i s).starting_attempts = s.starting_attempts ∧
     (soc_gear_block p i s).starter_start_time_ms = s.starter_start_time_ms) := by
  unfold soc_gear_block
  dsimp only
  repeat' split
  all_goals exact ⟨⟨rfl, rfl⟩, ⟨rfl, rfl⟩, ⟨rfl, rfl⟩⟩
lemma set_output_channels_state (p : IceParams) (i : TickInput) (s : IceSys) :
    (set_output_channels p i s).state = s.state := by
  unfold set_output_channels
  dsimp only
  split
  · exact (soc_gear_block_facts p i s).1.1
  · exact (soc_gear_block_facts p i s).1.1
lemma update_gear_state (p : IceParams) (i : TickInput) (s : IceSys) :
    (update_gear p i s).state = s.state := by
  unfold update_gear set_ice_transmission_state
  dsimp only
  repeat' split
  all_goals rfl
lemma ice_init_state (p : IceParams) (i : TickInput) (s : IceSys) :
    (ice_init p i s).state = s.state := by
  unfold ice_init
  dsimp only
  repeat' split
  all_goals simp [set_output_channels_state]
lemma ds_resolve_select (p : IceParams) (i : TickInput) (s : IceSys) :
    (ds_resolve p i s).startControlSelect = resolve_intent_val p i s.startControlSelect := by
  unfold ds_resolve resolve_intent_val
  split
  · split
    · rfl
    · rename_i h
      simp only [ne_eq, not_not] at h
      exact h
  · split <;> rfl
lemma ice_init_select (p : IceParams) (i : TickInput) (s : IceSys) :
    (ice_init p i s).startControlSelect =
      (match i.rc_pwm with
       | some _ => convertPwmToIgnitionState i.rc_trim
       | none => IgnState.ICE_IGNITION_OFF) := by
  unfold ice_init
  dsimp only
  split <;> rfl
lemma determine_state_off (p : IceParams) (i : TickInput) (s : IceSys)
    (h : sso p i.armed ((ds_resolve p i s).startControlSelect) = true) :
    (determine_state p i s).state = IceStateE.ICE_OFF := by
  unfold determine_state ds_gate
  rw [if_pos h]
  unfold ds_switch
  dsimp only
  rw [h]
  simp only [Bool.true_eq_false, false_and, if_false]
  unfold ds_finalize
  dsimp only
  split <;> split <;> rfl
lemma sensors_preserve (p : IceParams) (i : TickInput) (s : IceSys) :
    ((update_fuel p i (update_temperature p i s)).state = s.state ∧
     (update_fuel p i (update_temperature p i s)).startControlSelect = s.startControlSelect) ∧
    ((update_fuel p i (update_temperature p i s)).starting_attempts = s.starting_attempts ∧
     (update_fuel p i (update_temperature p i s)).starter_start_time_ms = s.starter_start_time_ms) ∧
    ((update_fuel p i (update_temperature p i s)).starter_last_run_ms = s.starter_last_run_ms ∧
     (update_fuel p i (update_temperature p i s)).engine_power_up_wait_ms = s.engine_power_up_wait_ms) ∧
    ((update_fuel p i (update_temperature p i s)).running_rpm_fail_timer_ms = s.running_rpm_fail_timer_ms ∧
     (update_fuel p i (update_temperature p i s)).force_staying_in_DELAY_NO_IGNITION_duration_ms =
       s.force_staying_in_DELAY_NO_IGNITION_duration_ms) ∧
    ((update_fuel p i (update_temperature p i s)).state_prev = s.state_prev ∧
     (update_fuel p i (update_temperature p i s)).state_change_timestamp_ms = s.state_change_timestamp_ms) ∧
    ((update_fuel p i (update_temperature p i s)).run_once = s.run_once ∧
     (update_fuel p i (update_temperature p i s)).gear = s.gear) := by
  unfold update_fuel update_temperature
  dsimp only
  repeat' split
  all_goals exact ⟨⟨rfl, rfl⟩, ⟨rfl, rfl⟩, ⟨rfl, rfl⟩, ⟨rfl, rfl⟩, ⟨rfl, rfl⟩, ⟨rfl, rfl⟩⟩
lemma ds_resolve_preserves (p : IceParams) (i : TickInput) (s : IceSys) :
    ((ds_resolve p i s).state = s.state ∧
     (ds_resolve p i s).starting_attempts = s.starting_attempts) ∧
    ((ds_resolve p i s).starter_start_time_ms = s.starter_start_time_ms ∧
     (ds_resolve p i s).starter_last_run_ms = s.starter_last_run_ms) ∧
    ((ds_resolve p i s).engine_power_up_wait_ms = s.engine_power_up_wait_ms ∧
     (ds_resolve p i s).running_rpm_fail_timer_ms = s.running_rpm_fail_timer_ms) ∧
    ((ds_resolve p i s).force_staying_in_DELAY_NO_IGNITION_duration_ms =
       s.force_staying_in_DELAY_NO_IGNITION_duration_ms ∧
     (ds_resolve p i s).state_prev = s.state_prev) ∧
    ((ds_resolve p i s).state_change_timestamp_ms = s.state_change_timestamp_ms ∧
     (ds_resolve p i s).gear = s.gear) := by
  unfold ds_resolve
  repeat' split
  all_goals exact ⟨⟨rfl, rfl⟩, ⟨rfl, rfl⟩, ⟨rfl, rfl⟩, ⟨rfl, rfl⟩, ⟨rfl, rfl⟩⟩
lemma ds_finalize_state (i : TickInput) (s : IceSys) :
    (ds_finalize i s).state = s.state := by
  unfold ds_finalize
  dsimp only
  split <;> split <;> rfl
lemma ds_gate_noop (p : IceParams) (i : TickInput) (s : IceSys)
    (h : sso p i.armed s.startControlSelect = false) :
    ds_gate p i s = s := by
  simp [ds_gate, h]
lemma ds_switch_starting (p : IceParams) (i : TickInput) (s : IceSys)
    (hst : s.state = IceStateE.ICE_STARTING) (hss : s.starter_start_time_ms ≠ 0)
    (hrun : arming_OK_to_start p i.armed = true) :
    ((0 < p.rpm_threshold_starting ∧ p.rpm_threshold_starting ≤ current_rpm_of p i) →
        (ds_switch p i s).state = IceStateE.ICE_RUNNING) ∧
    (¬(0 < p.rpm_threshold_starting ∧ p.rpm_threshold_starting ≤ current_rpm_of p i) →
      ((p.starter_time * 1000 : ℚ) ≤ (u32sub i.now s.starter_start_time_ms : ℚ)) →
      ((p.rpm_threshold_starting ≤ 0 → (ds_switch p i s).state = IceStateE.ICE_RUNNING) ∧
       (0 < p.rpm_threshold_starting → current_rpm_of p i < 0 →
          (ds_switch p i s).state = IceStateE.ICE_OFF) ∧
       (0 < p.rpm_threshold_starting → 0 ≤ current_rpm_of p i →
          current_rpm_of p i < p.rpm_threshold_starting →
          (ds_switch p i s).state = IceStateE.ICE_START_DELAY))) := by
  unfold ds_switch
  rw [hst]
  dsimp only
  rw [if_neg hss]
  rw [if_neg (by simp [hrun] : ¬ (arming_OK_to_start p i.armed = false))]
  constructor
  · intro h2
    rw [if_pos h2]
  · intro h2 helapsed
    rw [if_neg h2, if_pos helapsed]
    refine ⟨fun hle => by rw [if_pos hle], fun hpos hneg => ?_, fun hpos hge hlt => ?_⟩
    · rw [if_neg (by omega : ¬ p.rpm_threshold_starting ≤ 0), if_pos hneg]
    · rw [if_neg (by omega : ¬ p.rpm_threshold_starting ≤ 0),
          if_neg (by omega : ¬ current_rpm_of p i < 0), if_pos hlt]
lemma pipeline_select (p : IceParams) (i : TickInput) (s : IceSys) (hen : p.enable = true) :
    (update_fuel p i (update_temperature p i
      (if s.run_once = false then ice_init p i { s with run_once := true } else s))).startControlSelect =
    startControl_seen p i s := by
  rw [(sensors_preserve p i _).1.2]
  unfold startControl_seen
  split
  · rename_i hr
    rw [ice_init_select, if_pos ⟨hen, hr⟩]
  · rename_i hr
    rw [if_neg (fun hc => hr hc.2)]
lemma pipeline_state (p : IceParams) (i : TickInput) (s : IceSys) :
    (update_fuel p i (update_temperature p i
      (if s.run_once = false then ice_init p i { s with run_once := true } else s))).state = s.state := by
  rw [(sensors_preserve p i _).1.1]
  split
  · rw [ice_init_state]
  · rfl
/-- Claim C1: at the end of every tick of `update`, the engine state is OFF
whenever the controller is disabled, or the resolved ignition intent is
IGN_OFF, or OPTIONS bit0 (arming required for ignition) is set while the
vehicle is disarmed. -/
theorem C1_engine_forced_off (p : IceParams) (i : TickInput) (s : IceSys)
    (h : p.enable = false ∨ resolved_intent p i s = IgnState.ICE_IGNITION_OFF ∨
         (p.opt_arming_required_ignition = true ∧ i.armed = false)) :
    (update p i s).state = IceStateE.ICE_OFF := by
  by_cases hen : p.enable = false
  · unfold update
    rw [if_pos hen]
    dsimp only
    split
    · rw [ice_init_state]
    · rfl
  · have hen' : p.enable = true := by revert hen; cases p.enable <;> simp
    unfold update
    rw [if_neg (by simp [hen'])]
    dsimp only
    rw [set_output_channels_state, update_gear_state]
    apply determine_state_off
    rw [ds_resolve_select, pipeline_select p i s hen']
    rcases h with h | h | h
    · exact absurd h hen
    · unfold resolved_intent at h
      rw [h]
      rfl
    · simp [sso, arming_OK_to_ign, h.1, h.2]
lemma set_output_channels_ss (p : IceParams) (i : TickInput) (s : IceSys) :
    (set_output_channels p i s).starter_start_time_ms = s.starter_start_time_ms := by
  unfold set_output_channels
  dsimp only
  split
  · exact (soc_gear_block_facts p i s).2.2.2
  · exact (soc_gear_block_facts p i s).2.2.2
lemma ice_init_ss (p : IceParams) (i : TickInput) (s : IceSys) :
    (ice_init p i s).starter_start_time_ms = s.starter_start_time_ms := by
  unfold ice_init
  dsimp only
  split
  all_goals simp [set_output_channels_ss]
lemma pipeline_ss (p : IceParams) (i : TickInput) (s : IceSys) :
    (update_fuel p i (update_temperature p i
      (if s.run_once = false then ice_init p i { s with run_once := true } else s))).starter_start_time_ms =
    s.starter_start_time_ms := by
  rw [(sensors_preserve p i _).2.1.2]
  split
  · rw [ice_init_ss]
  · rfl
lemma determine_state_starting (p : IceParams) (i : TickInput) (s : IceSys)
    (hst : s.state = IceStateE.ICE_STARTING) (hss : s.starter_start_time_ms ≠ 0)
    (hns : sso p i.armed ((ds_resolve p i s).startControlSelect) = false)
    (hrun : arming_OK_to_start p i.armed = true) :
    ((0 < p.rpm_threshold_starting ∧ p.rpm_threshold_starting ≤ current_rpm_of p i) →
        (determine_state p i s).state = IceStateE.ICE_RUNNING) ∧
    (¬(0 < p.rpm_threshold_starting ∧ p.rpm_threshold_starting ≤ current_rpm_of p i) →
      ((p.starter_time * 1000 : ℚ) ≤ (u32sub i.now s.starter_start_time_ms : ℚ)) →
      ((p.rpm_threshold_starting ≤ 0 → (determine_state p i s).state = IceStateE.ICE_RUNNING) ∧
       (0 < p.rpm_threshold_starting → current_rpm_of p i < 0 →
          (determine_state p i s).state = IceStateE.ICE_OFF) ∧
       (0 < p.rpm_threshold_starting → 0 ≤ current_rpm_of p i →
          current_rpm_of p i < p.rpm_threshold_starting →
          (determine_state p i s).state = IceStateE.ICE_START_DELAY))) := by
  have hR1 : (ds_resolve p i s).state = IceStateE.ICE_STARTING := by
    rw [(ds_resolve_preserves p i s).1.1, hst]
  have hR2 : (ds_resolve p i s).starter_start_time_ms = s.starter_start_time_ms :=
    (ds_resolve_preserves p i s).2.1.1
  have key := ds_switch_starting p i (ds_resolve p i s) hR1 (by rw [hR2]; exact hss) hrun
  rw [hR2] at key
  unfold determine_state
  rw [ds_gate_noop p i _ hns]
  simp only [ds_finalize_state]
  exact key
/-- Claim C5: on a STARTING tick with run permission granted and the forced-off
gate not applying, reaching RPM_THRESH2 (when positive) moves to RUNNING
immediately; otherwise, once STARTER_TIME has elapsed since the recorded
starter engagement, the next state is RUNNING when RPM_THRESH2 is not
configured, OFF when no RPM sample was ever seen (rpm < 0), and START_DELAY
when 0 <= rpm < RPM_THRESH2. -/
theorem C5_starting_exit_transitions (p : IceParams) (i : TickInput) (s : IceSys)
    (hen : p.enable = true)
    (hst : s.state = IceStateE.ICE_STARTING)
    (hss : s.starter_start_time_ms ≠ 0)
    (hns : sso p i.armed (resolved_intent p i s) = false)
    (hrun : arming_OK_to_start p i.armed = true) :
    ((0 < p.rpm_threshold_starting ∧ p.rpm_threshold_starting ≤ current_rpm_of p i) →
        (update p i s).state = IceStateE.ICE_RUNNING) ∧
    (¬(0 < p.rpm_threshold_starting ∧ p.rpm_threshold_starting ≤ current_rpm_of p i) →
      ((p.starter_time * 1000 : ℚ) ≤ (u32sub i.now s.starter_start_time_ms : ℚ)) →
      ((p.rpm_threshold_starting ≤ 0 → (update p i s).state = IceStateE.ICE_RUNNING) ∧
       (0 < p.rpm_threshold_starting → current_rpm_of p i < 0 →
          (update p i s).state = IceStateE.ICE_OFF) ∧
       (0 < p.rpm_threshold_starting → 0 ≤ current_rpm_of p i →
          current_rpm_of p i < p.rpm_threshold_starting →
          (update p i s).state = IceStateE.ICE_START_DELAY))) := by
  unfold update
  rw [if_neg (by simp [hen])]
  dsimp only
  simp only [set_output_channels_state, update_gear_state]
  have key := determine_state_starting p i
    (update_fuel p i (update_temperature p i
      (if s.run_once = false then ice_init p i { s with run_once := true } else s)))
    (by rw [pipeline_state, hst])
    (by rw [pipeline_ss]; exact hss)
    (by rw [ds_resolve_select, pipeline_select p i s hen]; exact hns)
    hrun
  rw [pipeline_ss] at key
  exact key
lemma set_ice_unhandled (p : IceParams) (now : Nat) (pv : Int) (s : IceSys) (g : GearState)
    (hg : settable_gear g = false) (hpwm : g ≠ GearState.PWM_VALUE) :
    set_ice_transmission_state p now g pv s = (s, false) := by
  cases g
  all_goals first
    | rfl
    | exact absurd hg (by decide)
    | exact absurd rfl hpwm
/-- Claim C10: whenever `engine_control` is not rejected by the
blocked-external-commands option or the RC-off gate, it returns true, and with
a `start_control` outside 0/1/2 and an unsettable gear it changes neither the
ignition intent nor the gear despite the success return. -/
theorem C10_engine_control_accepts (p : IceParams) (now : Nat) (auto : Bool) (rc : Option Nat)
    (sc cs hd : ℚ) (g : GearState) (m : Bool) (s : IceSys)
    (hblock : p.opt_block_external_starter_cmds = false)
    (hgate : engine_control_rc_gate_rejects p auto rc = false) :
    (engine_control p now auto rc sc cs hd g m s).2 = true ∧
    ((sc ≠ (0 : ℚ) ∧ sc ≠ (1 : ℚ) ∧ sc ≠ (2 : ℚ)) → settable_gear g = false →
      ((engine_control p now auto rc sc cs hd g m s).1.startControlSelect = s.startControlSelect ∧
       (engine_control p now auto rc sc cs hd g m s).1.gear = s.gear)) := by
  unfold engine_control
  rw [if_neg (by simp [hblock]), if_neg (by simp [hgate])]
  constructor
  · rfl
  · rintro ⟨h0, h1, h2⟩ hg
    have hintent : engine_control_intent sc m s = s := by
      unfold engine_control_intent
      rw [if_neg h0, if_neg h1, if_neg h2]
    have hgear : ∀ s0 : IceSys, engine_control_gear p now g m s0 = s0 := by
      intro s0
      unfold engine_control_gear
      by_cases hgg : engine_control_gear_guard g = true
      · rw [if_pos hgg]
        have hpwm : g ≠ GearState.PWM_VALUE := by
          intro hE
          rw [hE] at hgg
          exact absurd hgg (by decide)
        rw [set_ice_unhandled p now 0 s0 g hg hpwm]
        simp
      · rw [if_neg hgg]
    dsimp only
    rw [hintent, hgear s]
    exact ⟨rfl, rfl⟩
lemma sameCore_C4inv {p : IceParams} {a b : IceSys} (h : sameCore a b) :
    C4inv p b → C4inv p a := by
  intro hb hcnt
  obtain ⟨h1, h2, h3⟩ := h
  rw [h1, h2, h3]
  exact hb hcnt
lemma set_output_channels_sameCore (p : IceParams) (i : TickInput) (s : IceSys) :
    sameCore (set_output_channels p i s) s := by
  have h := soc_gear_block_facts p i s
  unfold set_output_channels sameCore
  dsimp only
  split
  · exact ⟨h.1.1, h.2.2.1, h.2.2.2⟩
  · exact ⟨h.1.1, h.2.2.1, h.2.2.2⟩
lemma update_gear_sameCore (p : IceParams) (i : TickInput) (s : IceSys) :
    sameCore (update_gear p i s) s := by
  unfold update_gear set_ice_transmission_state sameCore
  dsimp only
  repeat' split
  all_goals exact ⟨rfl, rfl, rfl⟩
lemma ice_init_sameCore (p : IceParams) (i : TickInput) (s : IceSys) :
    sameCore (ice_init p i s) s := by
  unfold ice_init
  dsimp only
  have hsoc := set_output_channels_sameCore p i s
  obtain ⟨h1, h2, h3⟩ := hsoc
  split
  all_goals exact ⟨h1, h2, h3⟩
lemma sensors_sameCore (p : IceParams) (i : TickInput) (s : IceSys) :
    sameCore (update_fuel p i (update_temperature p i s)) s := by
  have h := sensors_preserve p i s
  exact ⟨h.1.1, h.2.1.1, h.2.1.2⟩
lemma sameCore_trans {a b c : IceSys} (h1 : sameCore a b) (h2 : sameCore b c) :
    sameCore a c :=
  ⟨h1.1.trans h2.1, h1.2.1.trans h2.2.1, h1.2.2.trans h2.2.2⟩
lemma set_ice_sameCore (p : IceParams) (now : Nat) (g : GearState) (pv : Int) (s : IceSys) :
    sameCore (set_ice_transmission_state p now g pv s).1 s := by
  unfold set_ice_transmission_state sameCore
  dsimp only
  repeat' split
  all_goals exact ⟨rfl, rfl, rfl⟩
lemma engine_control_intent_sameCore (sc : ℚ) (m : Bool) (s : IceSys) :
    sameCore (engine_control_intent sc m s) s := by
  unfold engine_control_intent sameCore
  repeat' split
  all_goals exact ⟨rfl, rfl, rfl⟩
lemma engine_control_gear_sameCore (p : IceParams) (now : Nat) (g : GearState) (m : Bool)
    (s : IceSys) : sameCore (engine_control_gear p now g m s) s := by
  unfold engine_control_gear
  dsimp only
  have h := set_ice_sameCore p now g 0 s
  split
  · split
    · exact ⟨h.1, h.2.1, h.2.2⟩
    · exact h
  · exact ⟨rfl, rfl, rfl⟩
lemma engine_control_sameCore (p : IceParams) (now : Nat) (auto : Bool) (rc : Option Nat)
    (sc cs hd : ℚ) (g : GearState) (m : Bool) (s : IceSys) :
    sameCore (engine_control p now auto rc sc cs hd g m s).1 s := by
  unfold engine_control
  split
  · exact ⟨rfl, rfl, rfl⟩
  · split
    · exact ⟨rfl, rfl, rfl⟩
    · exact sameCore_trans (engine_control_gear_sameCore p now g m _)
        (engine_control_intent_sameCore sc m s)
lemma ds_resolve_sameCore (p : IceParams) (i : TickInput) (s : IceSys) :
    sameCore (ds_resolve p i s) s := by
  have h := ds_resolve_preserves p i s
  exact ⟨h.1.1, h.1.2, h.2.1.1⟩
lemma C4inv_gate (p : IceParams) (i : TickInput) (s : IceSys) (h : C4inv p s) :
    C4inv p (ds_gate p i s) := by
  unfold ds_gate
  split
  · intro hcnt
    exact ⟨(h hcnt).1, by intro hx; exact absurd hx.1 (by simp)⟩
  · exact h
lemma C4inv_finalize (p : IceParams) (i : TickInput) (s : IceSys) (h : C4inv p s) :
    C4inv p (ds_finalize i s) := by
  unfold ds_finalize
  dsimp only
  intro hcnt
  split
  · rename_i hne
    split
    · exact ⟨(h hcnt).1, by intro hx; exact absurd hx.1 hne⟩
    · exact ⟨(h hcnt).1, by intro hx; exact absurd hx.1 hne⟩
  · rename_i hne
    split
    · exact ⟨(h hcnt).1, fun hx => (h hcnt).2 ⟨by simpa using hne, hx.2⟩⟩
    · exact ⟨(h hcnt).1, fun hx => (h hcnt).2 ⟨by simpa using hne, hx.2⟩⟩
lemma ds_switch_height (p : IceParams) (i : TickInput) (s : IceSys)
    (hst : s.state = IceStateE.ICE_START_HEIGHT_DELAY) :
    ds_switch p i s = { s with state := IceStateE.ICE_OFF } := by
  unfold ds_switch
  rw [hst]
lemma ds_switch_noign (p : IceParams) (i : TickInput) (s : IceSys)
    (hst : s.state = IceStateE.ICE_START_DELAY_NO_IGNITION) :
    ds_switch p i s = s ∨
    ds_switch p i s = { s with force_staying_in_DELAY_NO_IGNITION_duration_ms := 0 } := by
  unfold ds_switch
  rw [hst]
  dsimp only
  split
  · exact Or.inl rfl
  · exact Or.inr rfl
lemma ds_switch_off (p : IceParams) (i : TickInput) (s : IceSys)
    (hst : s.state = IceStateE.ICE_OFF) :
    ds_switch p i s = { s with starting_attempts := 0, state := IceStateE.ICE_START_DELAY } ∨
    ds_switch p i s = { s with starting_attempts := 0 } := by
  unfold ds_switch
  rw [hst]
  dsimp only
  split
  · exact Or.inl rfl
  · exact Or.inr rfl
lemma ds_switch_delay (p : IceParams) (i : TickInput) (s : IceSys)
    (hst : s.state = IceStateE.ICE_START_DELAY) :
    (ds_switch p i s = s ∨ ds_switch p i s = { s with engine_power_up_wait_ms := i.now }) ∨
    (ds_switch p i s = { s with state := IceStateE.ICE_STARTING } ∧
      ¬(0 ≤ p.resarts_allowed ∧ p.resarts_allowed < (s.starting_attempts : Int))) := by
  unfold ds_switch
  rw [hst]
  dsimp only
  split
  · exact Or.inl (Or.inl rfl)
  · split
    · exact Or.inl (Or.inl rfl)
    · rename_i hguard
      split
      · exact Or.inl (Or.inr rfl)
      · split
        · exact Or.inl (Or.inl rfl)
        · split
          · exact Or.inr ⟨rfl, hguard⟩
          · split
            · exact Or.inr ⟨rfl, hguard⟩
            · exact Or.inl (Or.inl rfl)
lemma ds_switch_running_facts (p : IceParams) (i : TickInput) (s : IceSys)
    (hst : s.state = IceStateE.ICE_RUNNING) :
    (ds_switch p i s).starting_attempts = s.starting_attempts ∧
    (ds_switch p i s).starter_start_time_ms = s.starter_start_time_ms ∧
    (ds_switch p i s).state ≠ IceStateE.ICE_STARTING := by
  unfold ds_switch
  rw [hst]
  dsimp only
  repeat' split
  all_goals exact ⟨rfl, rfl, fun hx => IceStateE.noConfusion hx⟩
lemma ds_switch_starting_facts (p : IceParams) (i : TickInput) (s : IceSys)
    (hst : s.state = IceStateE.ICE_STARTING) :
    (s.starter_start_time_ms = 0 ∧
      (ds_switch p i s).starting_attempts = s.starting_attempts + 1 ∧
      (ds_switch p i s).starter_start_time_ms = i.now) ∨
    (s.starter_start_time_ms ≠ 0 ∧
      (ds_switch p i s).starting_attempts = s.starting_attempts ∧
      (ds_switch p i s).starter_start_time_ms = s.starter_start_time_ms) := by
  unfold ds_switch
  rw [hst]
  dsimp only
  by_cases hss : s.starter_start_time_ms = 0
  · rw [if_pos hss]
    refine Or.inl ⟨hss, ?_⟩
    repeat' split
    all_goals exact ⟨rfl, rfl⟩
  · rw [if_neg hss]
    refine Or.inr ⟨hss, ?_⟩
    repeat' split
    all_goals exact ⟨rfl, rfl⟩
lemma C4inv_switch (p : IceParams) (i : TickInput) (s : IceSys) (hnow : 0 < i.now)
    (h : C4inv p s) : C4inv p (ds_switch p i s) := by
  intro hcnt
  obtain ⟨hb, hi⟩ := h hcnt
  cases hstate : s.state with
  | ICE_START_HEIGHT_DELAY =>
      rw [ds_switch_height p i s hstate]
      exact ⟨hb, fun hx => IceStateE.noConfusion hx.1⟩
  | ICE_OFF =>
      rcases ds_switch_off p i s hstate with hEq | hEq
      · rw [hEq]
        refine ⟨(by omega : ((0 : Nat) : Int) ≤ p.resarts_allowed + 1), ?_⟩
        exact fun hx => IceStateE.noConfusion hx.1
      · rw [hEq]
        refine ⟨(by omega : ((0 : Nat) : Int) ≤ p.resarts_allowed + 1), ?_⟩
        intro hx
        have h2 : s.state = IceStateE.ICE_STARTING := hx.1
        rw [hstate] at h2
        exact absurd h2 (by decide)
  | ICE_START_DELAY_NO_IGNITION =>
      rcases ds_switch_noign p i s hstate with hEq | hEq <;> rw [hEq]
      · refine ⟨hb, ?_⟩
        intro hx
        rw [hstate] at hx
        exact absurd hx.1 (by decide)
      · refine ⟨hb, ?_⟩
        intro hx
        have h2 : s.state = IceStateE.ICE_STARTING := hx.1
        rw [hstate] at h2
        exact absurd h2 (by decide)
  | ICE_START_DELAY =>
      rcases ds_switch_delay p i s hstate with (hEq | hEq) | ⟨hEq, hguard⟩
      · rw [hEq]
        refine ⟨hb, ?_⟩
        intro hx
        rw [hstate] at hx
        exact absurd hx.1 (by decide)
      · rw [hEq]
        refine ⟨hb, ?_⟩
        intro hx
        have h2 : s.state = IceStateE.ICE_STARTING := hx.1
        rw [hstate] at h2
        exact absurd h2 (by decide)
      · rw [hEq]
        have hle : (s.starting_attempts : Int) ≤ p.resarts_allowed := by
          by_contra hgt
          exact hguard ⟨hcnt, by omega⟩
        exact ⟨(by omega : (s.starting_attempts : Int) ≤ p.resarts_allowed + 1), fun _ => hle⟩
  | ICE_STARTING =>
      rcases ds_switch_starting_facts p i s hstate with ⟨hss, ha, hs⟩ | ⟨hss, ha, hs⟩
      · have hle : (s.starting_attempts : Int) ≤ p.resarts_allowed := hi ⟨hstate, hss⟩
        refine ⟨by rw [ha]; push_cast; omega, ?_⟩
        intro hx
        rw [hs] at hx
        exact absurd hx.2 (by omega)
      · refine ⟨by rw [ha]; exact hb, ?_⟩
        intro hx
        rw [hs] at hx
        exact absurd hx.2 hss
  | ICE_RUNNING =>
      obtain ⟨ha, hs, hne⟩ := ds_switch_running_facts p i s hstate
      refine ⟨by rw [ha]; exact hb, ?_⟩
      intro hx
      exact absurd hx.1 hne
lemma C4inv_tick (p : IceParams) (i : TickInput) (s : IceSys) (hnow : 0 < i.now)
    (h : C4inv p s) : C4inv p (update p i s) := by
  have hoff : C4inv p { s with state := IceStateE.ICE_OFF } := by
    intro hcnt
    exact ⟨(h hcnt).1, fun hx => IceStateE.noConfusion hx.1⟩
  unfold update
  split
  · dsimp only
    split
    · exact sameCore_C4inv (ice_init_sameCore p i _)
        (sameCore_C4inv ⟨rfl, rfl, rfl⟩ hoff)
    · exact hoff
  · dsimp only
    apply sameCore_C4inv (set_output_channels_sameCore p i _)
    apply sameCore_C4inv (update_gear_sameCore p i _)
    have hX : C4inv p (update_fuel p i (update_temperature p i
        (if s.run_once = false then ice_init p i { s with run_once := true } else s))) := by
      apply sameCore_C4inv (sensors_sameCore p i _)
      split
      · exact sameCore_C4inv (ice_init_sameCore p i _) (sameCore_C4inv ⟨rfl, rfl, rfl⟩ h)
      · exact h
    unfold determine_state
    exact C4inv_finalize p i _ (C4inv_switch p i _ hnow
      (C4inv_gate p i _ (sameCore_C4inv (ds_resolve_sameCore p i _) hX)))
lemma reachable_C4inv (p : IceParams) (s : IceSys) (hr : Reachable p s) : C4inv p s := by
  induction hr with
  | boot =>
      intro hcnt
      refine ⟨(by omega : ((0 : Nat) : Int) ≤ p.resarts_allowed + 1), ?_⟩
      exact fun hx => IceStateE.noConfusion hx.1
  | tick i hnow _ ih => exact C4inv_tick p i _ hnow ih
  | cmd now auto rc sc cs hd g m _ ih =>
      exact sameCore_C4inv (engine_control_sameCore p now auto rc sc cs hd g m _) ih
  | setgear now g pv _ ih => exact sameCore_C4inv (set_ice_sameCore p now g pv _) ih
lemma ds_finalize_attempts (i : TickInput) (s : IceSys) :
    (ds_finalize i s).starting_attempts = s.starting_attempts := by
  unfold ds_finalize
  dsimp only
  split <;> split <;> rfl
lemma pipeline_attempts (p : IceParams) (i : TickInput) (s : IceSys) :
    (update_fuel p i (update_temperature p i
      (if s.run_once = false then ice_init p i { s with run_once := true } else s))).starting_attempts =
    s.starting_attempts := by
  rw [(sensors_sameCore p i _).2.1]
  split
  · exact (ice_init_sameCore p i _).2.1
  · rfl
lemma ds_switch_attempts_mono (p : IceParams) (i : TickInput) (s : IceSys)
    (hne : s.state ≠ IceStateE.ICE_OFF) :
    s.starting_attempts ≤ (ds_switch p i s).starting_attempts := by
  cases hstate : s.state with
  | ICE_OFF => exact absurd hstate hne
  | ICE_START_HEIGHT_DELAY => rw [ds_switch_height p i s hstate]
  | ICE_START_DELAY_NO_IGNITION =>
      rcases ds_switch_noign p i s hstate with hEq | hEq <;> rw [hEq]
  | ICE_START_DELAY =>
      rcases ds_switch_delay p i s hstate with (hEq | hEq) | ⟨hEq, _⟩ <;> rw [hEq]
  | ICE_STARTING =>
      rcases ds_switch_starting_facts p i s hstate with ⟨_, ha, _⟩ | ⟨_, ha, _⟩ <;> rw [ha]
      omega
  | ICE_RUNNING =>
      rw [(ds_switch_running_facts p i s hstate).1]
lemma tick_delay_lingers (p : IceParams) (i : TickInput) (s : IceSys)
    (hst : s.state = IceStateE.ICE_START_DELAY)
    (hcnt : 0 ≤ p.resarts_allowed)
    (hgt : p.resarts_allowed < (s.starting_attempts : Int)) :
    (update p i s).state ≠ IceStateE.ICE_STARTING := by
  unfold update
  split
  · dsimp only
    split
    · rw [ice_init_state]
      exact fun hx => IceStateE.noConfusion hx
    · exact fun hx => IceStateE.noConfusion hx
  · dsimp only
    rw [set_output_channels_state, update_gear_state]
    by_cases hsso : sso p i.armed ((ds_resolve p i (update_fuel p i (update_temperature p i
        (if s.run_once = false then ice_init p i { s with run_once := true } else s)))).startControlSelect) = true
    · rw [determine_state_off p i _ hsso]
      exact fun hx => IceStateE.noConfusion hx
    · unfold determine_state
      rw [ds_gate_noop p i _ (by revert hsso; cases hb : sso p i.armed _ <;> simp)]
      rw [ds_finalize_state]
      have hXd : (ds_resolve p i (update_fuel p i (update_temperature p i
          (if s.run_once = false then ice_init p i { s with run_once := true } else s)))).state =
          IceStateE.ICE_START_DELAY := by
        rw [(ds_resolve_sameCore p i _).1, pipeline_state, hst]
      have hXa : (ds_resolve p i (update_fuel p i (update_temperature p i
          (if s.run_once = false then ice_init p i { s with run_once := true } else s)))).starting_attempts =
          s.starting_attempts := by
        rw [(ds_resolve_sameCore p i _).2.1, pipeline_attempts]
      rcases ds_switch_delay p i _ hXd with (hEq | hEq) | ⟨_, hguard⟩
      · rw [hEq, hXd]
        exact fun hx => IceStateE.noConfusion hx
      · rw [hEq]
        intro hx
        have h2 : (ds_resolve p i (update_fuel p i (update_temperature p i
            (if s.run_once = false then ice_init p i { s with run_once := true } else s)))).state =
            IceStateE.ICE_STARTING := hx
        rw [hXd] at h2
        exact IceStateE.noConfusion h2
      · exact absurd ⟨hcnt, by rw [hXa]; exact hgt⟩ hguard
lemma tick_attempts_decrease (p : IceParams) (i : TickInput) (s : IceSys)
    (hdec : (update p i s).starting_attempts < s.starting_attempts) :
    s.state = IceStateE.ICE_OFF ∨ (update p i s).state = IceStateE.ICE_OFF := by
  by_cases hen : p.enable = false
  · right
    unfold update
    rw [if_pos hen]
    dsimp only
    split
    · rw [ice_init_state]
    · rfl
  · have hcore : sameCore (update p i s)
        (ds_finalize i (ds_switch p i (ds_gate p i (ds_resolve p i (update_fuel p i (update_temperature p i
          (if s.run_once = false then ice_init p i { s with run_once := true } else s))))))) := by
      unfold update
      rw [if_neg (by simpa using hen)]
      dsimp only
      unfold determine_state
      exact sameCore_trans (set_output_channels_sameCore p i _) (update_gear_sameCore p i _)
    by_cases hsso : sso p i.armed ((ds_resolve p i (update_fuel p i (update_temperature p i
        (if s.run_once = false then ice_init p i { s with run_once := true } else s)))).startControlSelect) = true
    · right
      have := determine_state_off p i (update_fuel p i (update_temperature p i
        (if s.run_once = false then ice_init p i { s with run_once := true } else s))) hsso
      unfold determine_state at this
      rw [hcore.1, this]
    · by_cases hXOFF : s.state = IceStateE.ICE_OFF
      · exact Or.inl hXOFF
      · exfalso
        have hgate : ds_gate p i (ds_resolve p i (update_fuel p i (update_temperature p i
            (if s.run_once = false then ice_init p i { s with run_once := true } else s)))) =
            ds_resolve p i (update_fuel p i (update_temperature p i
            (if s.run_once = false then ice_init p i { s with run_once := true } else s))) :=
          ds_gate_noop p i _ (by revert hsso; cases hb : sso p i.armed _ <;> simp)
        rw [hcore.2.1, hgate, ds_finalize_attempts] at hdec
        have hmono := ds_switch_attempts_mono p i (ds_resolve p i (update_fuel p i (update_temperature p i
            (if s.run_once = false then ice_init p i { s with run_once := true } else s))))
          (by rw [(ds_resolve_sameCore p i _).1, pipeline_state]; exact hXOFF)
        rw [(ds_resolve_sameCore p i _).2.1, pipeline_attempts] at hmono
        omega
lemma set_ice_shift_preserved (p : IceParams) (now : Nat) (g : GearState) (pv : Int) (s : IceSys) :
    (set_ice_transmission_state p now g pv s).1.gear.pending.change_physical_gear_start_ms =
    s.gear.pending.change_physical_gear_start_ms := by
  unfold set_ice_transmission_state
  dsimp only
  repeat' split
  all_goals rfl
lemma set_ice_pending_cases (p : IceParams) (now : Nat) (g : GearState) (pv : Int) (s : IceSys) :
    (set_ice_transmission_state p now g pv s).1.gear.pending = s.gear.pending ∨
    (set_ice_transmission_state p now g pv s).1.gear.pending.stop_vehicle_start_ms = now := by
  unfold set_ice_transmission_state
  dsimp only
  repeat' split
  all_goals first
    | exact Or.inl rfl
    | exact Or.inr rfl
lemma pending_inactive_zero (q : PendingGear) (h : q.is_active = false) :
    q.stop_vehicle_start_ms = 0 ∧ q.change_physical_gear_start_ms = 0 := by
  unfold PendingGear.is_active at h
  simp only [Bool.or_eq_false_iff, decide_eq_false_iff_not, not_not] at h
  exact h
lemma update_gear_no_overlap (p : IceParams) (i : TickInput) (s : IceSys)
    (h : ¬(s.gear.pending.stop_vehicle_start_ms ≠ 0 ∧ s.gear.pending.change_physical_gear_start_ms ≠ 0)) :
    ¬((update_gear p i s).gear.pending.stop_vehicle_start_ms ≠ 0 ∧
      (update_gear p i s).gear.pending.change_physical_gear_start_ms ≠ 0) := by
  unfold update_gear
  dsimp only
  split
  · repeat' split
    all_goals first
      | (intro hx; exact hx.1 rfl)
      | exact h
  · split
    · repeat' split
      all_goals first
        | (intro hx; exact hx.2 rfl)
        | exact h
    · split
      · rename_i hcond
        have hia : s.gear.pending.is_active = false := hcond.2.2.2.2.2
        have hshift := (pending_inactive_zero _ hia).2
        intro hx
        rw [set_ice_shift_preserved] at hx
        exact hx.2 hshift
      · exact h
lemma update_gear_overlap_resolves (p : IceParams) (i : TickInput) (s : IceSys)
    (hboth : s.gear.pending.stop_vehicle_start_ms ≠ 0 ∧ s.gear.pending.change_physical_gear_start_ms ≠ 0) :
    (update_gear p i s).gear.pending.stop_vehicle_start_ms = 0 ∨
    (update_gear p i s).gear.pending = s.gear.pending := by
  unfold update_gear
  dsimp only
  split
  · repeat' split
    all_goals first
      | exact Or.inl rfl
      | exact Or.inr rfl
  · rename_i hstop
    exact absurd (by omega : s.gear.pending.stop_vehicle_start_ms = 0) hboth.1
lemma soc_skip (p : IceParams) (i : TickInput) (s : IceSys)
    (hA : s.gear.pending.is_active = true ∧ s.state ≠ IceStateE.ICE_OFF) :
    (set_output_channels p i s).outputs.starter = s.outputs.starter ∧
    (set_output_channels p i s).outputs.ignition = s.outputs.ignition := by
  have h := soc_gear_block_facts p i s
  unfold set_output_channels
  dsimp only
  rw [if_pos (show (soc_gear_block p i s).gear.pending.is_active = true ∧
      (soc_gear_block p i s).state ≠ IceStateE.ICE_OFF from
      ⟨by rw [h.1.2]; exact hA.1, by rw [h.1.1]; exact hA.2⟩)]
  exact ⟨h.2.1.1, h.2.1.2⟩
lemma soc_guard_neg (p : IceParams) (i : TickInput) (s : IceSys)
    (hA : ¬(s.gear.pending.is_active = true ∧ s.state ≠ IceStateE.ICE_OFF)) :
    ¬((soc_gear_block p i s).gear.pending.is_active = true ∧
      (soc_gear_block p i s).state ≠ IceStateE.ICE_OFF) := by
  have h := soc_gear_block_facts p i s
  intro hx
  exact hA ⟨by rw [h.1.2] at hx; exact hx.1, by rw [h.1.1] at hx; exact hx.2⟩
lemma soc_starter_starting (p : IceParams) (i : TickInput) (s : IceSys)
    (hA : ¬(s.gear.pending.is_active = true ∧ s.state ≠ IceStateE.ICE_OFF))
    (hst : s.state = IceStateE.ICE_STARTING) :
    (set_output_channels p i s).outputs.starter = SrvOut.scaled 100 := by
  have h := soc_gear_block_facts p i s
  unfold set_output_channels
  dsimp only
  rw [if_neg (soc_guard_neg p i s hA)]
  show (soc_ign_starter p (soc_gear_block p i s).state (soc_gear_block p i s).outputs).starter =
    SrvOut.scaled 100
  rw [h.1.1, hst]
  rfl
lemma soc_starter_off (p : IceParams) (i : TickInput) (s : IceSys)
    (hchan : p.starter_chan_exists = true)
    (hA : ¬(s.gear.pending.is_active = true ∧ s.state ≠ IceStateE.ICE_OFF))
    (hns : s.state ≠ IceStateE.ICE_STARTING) :
    (set_output_channels p i s).outputs.starter = SrvOut.pwmv p.starter_trim ∨
    (set_output_channels p i s).outputs.starter = SrvOut.scaled 0 := by
  have h := soc_gear_block_facts p i s
  unfold set_output_channels
  dsimp only
  rw [if_neg (soc_guard_neg p i s hA)]
  show (soc_ign_starter p (soc_gear_block p i s).state (soc_gear_block p i s).outputs).starter =
      SrvOut.pwmv p.starter_trim ∨
    (soc_ign_starter p (soc_gear_block p i s).state (soc_gear_block p i s).outputs).starter =
      SrvOut.scaled 0
  rw [h.1.1]
  cases hse : s.state with
  | ICE_STARTING => exact absurd hse hns
  | ICE_OFF =>
      left
      unfold soc_ign_starter
      rw [if_pos hchan]
  | ICE_START_DELAY_NO_IGNITION =>
      left
      unfold soc_ign_starter
      rw [if_pos hchan]
  | ICE_START_HEIGHT_DELAY => exact Or.inr rfl
  | ICE_START_DELAY => exact Or.inr rfl
  | ICE_RUNNING => exact Or.inr rfl

set_option maxRecDepth 40000 in
/-- Claim C1 witness: with the start switch at 1000 (decoding OFF) the resolved
intent is IGN_OFF and the tick from boot ends in OFF. -/
theorem C1_engine_forced_off_witness :
    resolved_intent pX inOff bootSys = IgnState.ICE_IGNITION_OFF ∧
    (update pX inOff bootSys).state = IceStateE.ICE_OFF :=
  ⟨by decide, C1_engine_forced_off pX inOff bootSys (Or.inr (Or.inl (by decide)))⟩

set_option maxRecDepth 40000 in
/-- Claim C5 witness: a STARTING tick at 350 rpm with threshold 300 exits to
RUNNING. -/
theorem C5_starting_exit_transitions_witness :
    (update pX (inX 2600 350) sStarting).state = IceStateE.ICE_RUNNING :=
  (C5_starting_exit_transitions pX (inX 2600 350) sStarting rfl rfl (by decide)
    (by decide) (by decide)).1 (by decide)

set_option maxRecDepth 40000 in
/-- Claim C10 witness: `start_control = 5` with gear REVERSE_2 is accepted yet
changes neither the intent nor the gear. -/
theorem C10_engine_control_accepts_witness :
    (engine_control pX 1000 false (some 1500) 5 0 0 GearState.REVERSE_2 false sPark).2 = true ∧
    (engine_control pX 1000 false (some 1500) 5 0 0 GearState.REVERSE_2 false sPark).1.startControlSelect =
      sPark.startControlSelect := by
  have h := C10_engine_control_accepts pX 1000 false (some 1500) 5 0 0 GearState.REVERSE_2 false sPark
    rfl (by decide)
  exact ⟨h.1, (h.2 ⟨by decide, by decide, by decide⟩ (by decide)).1⟩

/-- Claim C4: with RESTART_CNT at least 0, the attempt counter of every
reachable state stays at most RESTART_CNT + 1; a tick from START_DELAY with
the budget exhausted never enters STARTING; and a tick only clears the
counter by passing through OFF. -/
theorem C4_restart_budget (p : IceParams) :
    (∀ s : IceSys, Reachable p s → 0 ≤ p.resarts_allowed →
        (s.starting_attempts : Int) ≤ p.resarts_allowed + 1) ∧
    (∀ (i : TickInput) (s : IceSys), s.state = IceStateE.ICE_START_DELAY →
        0 ≤ p.resarts_allowed → p.resarts_allowed < (s.starting_attempts : Int) →
        (update p i s).state ≠ IceStateE.ICE_STARTING) ∧
    (∀ (i : TickInput) (s : IceSys),
        (update p i s).starting_attempts < s.starting_attempts →
        s.state = IceStateE.ICE_OFF ∨ (update p i s).state = IceStateE.ICE_OFF) :=
  ⟨fun s hr hcnt => (reachable_C4inv p s hr hcnt).1,
   fun i s hst hcnt hgt => tick_delay_lingers p i s hst hcnt hgt,
   fun i s hdec => tick_attempts_decrease p i s hdec⟩

set_option maxRecDepth 40000 in
/-- Claim C4 witness: with budget 1, boot satisfies the bound and a tick from
START_DELAY with 2 attempts does not enter STARTING. -/
theorem C4_restart_budget_witness :
    (bootSys.starting_attempts : Int) ≤ pC4x.resarts_allowed + 1 ∧
    (update pC4x (inX 1000 0) sDelayAtt2).state ≠ IceStateE.ICE_STARTING :=
  ⟨(C4_restart_budget pC4x).1 bootSys Reachable.boot (by decide),
   (C4_restart_budget pC4x).2.1 (inX 1000 0) sDelayAtt2 rfl (by decide) (by decide)⟩

set_option maxRecDepth 40000 in
/-- Claim C2 (code bug): in START_DELAY_NO_IGNITION, once the 3 s forced-off
window has elapsed (state change at 10 s, tick at 20 s) and every START_DELAY
condition for starting holds, the tick stays in START_DELAY_NO_IGNITION with
the ignition still at trim and the attempt counter kept; an otherwise
identical START_DELAY state moves to STARTING on the same tick. -/
theorem C2_no_ignition_dwell_code_divergence :
    (update pX (inX 20000 0) sDelayNoIgn).state = IceStateE.ICE_START_DELAY_NO_IGNITION ∧
    (update pX (inX 20000 0) sDelayNoIgn).outputs.ignition = SrvOut.pwmv 900 ∧
    (update pX (inX 20000 0) sDelayNoIgn).starting_attempts = 1 ∧
    (update pX (inX 20000 0) sDelayPlain).state = IceStateE.ICE_STARTING := by
  with_unfolding_all decide

set_option maxRecDepth 40000 in
/-- Claim C6 (code bug): in NEUTRAL with `brakeReleaseAllowedIn_Neutral_and_-
Disarmed` set and no change in flight, `brake_override` forces 100 while
disarmed (the claim expects 0); the release branch fires only while armed. -/
theorem C6_brake_neutral_disarmed_code_divergence :
    (brake_override pX false sNeutral 50 0 false 0).1 = 100 ∧
    (brake_override pX true sNeutral 50 0 false 0).1 = 0 := by
  with_unfolding_all decide

set_option maxRecDepth 40000 in
/-- Claim C7 (code bug): a fuel sample taken 1 s after the previous one (well
within 5 s) replaces the stored value outright — the inverted unsigned
staleness check `last - now > 5000` classifies it as stale — instead of
producing the filtered value 0.1·10 + 0.9·20 = 19. -/
theorem C7_lpf_staleness_code_divergence :
    (update_fuel pX { inX 2000 0 with batt_healthy := true, batt_pct := 20 } sFuel).fuel_value = 20 ∧
    ((1/10 : ℚ) * 10 + (9/10 : ℚ) * 20 = 19 ∧ (20 : ℚ) ≠ 19) := by
  with_unfolding_all decide

set_option maxRecDepth 40000 in
/-- Claim C9 (code bug): with the start channel at 1000 — which decodes to
IGN_OFF — and no forced-auto mode, `engine_control` still accepts the command
and changes the intent: the misplaced parenthesis makes the RC-off gate
constant false. -/
theorem C9_rc_off_gate_code_divergence :
    (engine_control pX 1000 false (some 1000) 2 0 0 GearState.UNKNOWN false sPark).2 = true ∧
    (engine_control pX 1000 false (some 1000) 2 0 0 GearState.UNKNOWN false sPark).1.startControlSelect =
      IgnState.ICE_IGNITION_START_RUN ∧
    convertPwmToIgnitionState 1000 = IgnState.ICE_IGNITION_OFF := by
  with_unfolding_all decide

set_option maxRecDepth 40000 in
/-- Claim C3 counterexample: a reachable four-step run (two ticks, an external
FORWARD gear command, one more tick) ends with the engine RUNNING while the
starter output is still driven high — the tick with a gear change in flight
skipped the starter update instead of driving it off. -/
theorem C3_starter_high_outside_starting_counterexample :
    Reachable pX c3_s3 ∧ c3_s3.state = IceStateE.ICE_RUNNING ∧
    c3_s3.outputs.starter = SrvOut.scaled 100 := by
  refine ⟨?_, ?_, ?_⟩
  case refine_2 => with_unfolding_all decide
  case refine_3 => with_unfolding_all decide
  exact Reachable.tick (inX 2600 350) (by decide)
    (Reachable.cmd 2500 false (some 1800) 3 0 0 .FORWARD false
      (Reachable.tick (inX 2000 0) (by decide)
        (Reachable.tick (inX 1000 0) (by decide) Reachable.boot)))

/-- Claim C3 (amended): per output pass, when a gear change is in flight and
the engine state is not OFF the ignition and starter outputs are left
untouched; otherwise the starter is driven high exactly in STARTING and is
driven off (trim or scaled 0) in every other state. -/
theorem C3_starter_only_in_starting_amended (p : IceParams) (i : TickInput) (s : IceSys)
    (hchan : p.starter_chan_exists = true) :
    ((s.gear.pending.is_active = true ∧ s.state ≠ IceStateE.ICE_OFF) →
      ((set_output_channels p i s).outputs.starter = s.outputs.starter ∧
       (set_output_channels p i s).outputs.ignition = s.outputs.ignition)) ∧
    (¬(s.gear.pending.is_active = true ∧ s.state ≠ IceStateE.ICE_OFF) →
      ((s.state = IceStateE.ICE_STARTING →
          (set_output_channels p i s).outputs.starter = SrvOut.scaled 100) ∧
       (s.state ≠ IceStateE.ICE_STARTING →
          ((set_output_channels p i s).outputs.starter = SrvOut.pwmv p.starter_trim ∨
           (set_output_channels p i s).outputs.starter = SrvOut.scaled 0)) ∧
       ((set_output_channels p i s).outputs.starter = SrvOut.scaled 100 →
          s.state = IceStateE.ICE_STARTING))) := by
  refine ⟨fun hA => soc_skip p i s hA, fun hA => ⟨fun hst => soc_starter_starting p i s hA hst,
    fun hns => soc_starter_off p i s hchan hA hns, fun h100 => ?_⟩⟩
  by_contra hns
  rcases soc_starter_off p i s hchan hA hns with hoff | hoff
  · rw [h100] at hoff
    exact SrvOut.noConfusion hoff
  · rw [h100] at hoff
    exact absurd hoff (by decide)

set_option maxRecDepth 40000 in
/-- Claim C3 (amended) witness: an output pass in STARTING with no change in
flight drives the starter high. -/
theorem C3_starter_only_in_starting_amended_witness :
    (set_output_channels pX (inX 2600 0) sStarting).outputs.starter = SrvOut.scaled 100 :=
  ((C3_starter_only_in_starting_amended pX (inX 2600 0) sStarting rfl).2 (by decide)).1 rfl

set_option maxRecDepth 40000 in
/-- Claim C8 counterexample: a set-gear command issued while the physical
shift is in flight leaves both phase timestamps non-zero at once, so the
pending change is active with the two timestamps overlapping rather than
exactly one non-zero. -/
theorem C8_phase_overlap_counterexample :
    c8_s3.gear.pending.is_active = true ∧
    c8_s3.gear.pending.stop_vehicle_start_ms = 2500 ∧
    c8_s3.gear.pending.change_physical_gear_start_ms = 2000 := by
  with_unfolding_all decide

/-- Claim C8 (amended): a gear tick never creates a phase overlap, and a
set-gear command with no physical shift in flight leaves at most the
stop-wait timestamp set; but a set-gear command that re-initiates a change
while the shift is in flight (at a non-zero clock) leaves both timestamps
non-zero, and a subsequent gear tick either completes the stop-wait (clearing
it) or leaves the pending record unchanged. -/
theorem C8_phase_overlap_amended (p : IceParams) :
    (∀ (i : TickInput) (s : IceSys),
       ¬(s.gear.pending.stop_vehicle_start_ms ≠ 0 ∧
         s.gear.pending.change_physical_gear_start_ms ≠ 0) →
       ¬((update_gear p i s).gear.pending.stop_vehicle_start_ms ≠ 0 ∧
         (update_gear p i s).gear.pending.change_physical_gear_start_ms ≠ 0)) ∧
    (∀ (now : Nat) (g : GearState) (pv : Int) (s : IceSys),
       s.gear.pending.change_physical_gear_start_ms = 0 →
       ¬((set_ice_transmission_state p now g pv s).1.gear.pending.stop_vehicle_start_ms ≠ 0 ∧
         (set_ice_transmission_state p now g pv s).1.gear.pending.change_physical_gear_start_ms ≠ 0)) ∧
    (∀ (now : Nat) (g : GearState) (pv : Int) (s : IceSys),
       s.gear.pending.change_physical_gear_start_ms ≠ 0 → 0 < now →
       (set_ice_transmission_state p now g pv s).1.gear.pending ≠ s.gear.pending →
       ((set_ice_transmission_state p now g pv s).1.gear.pending.stop_vehicle_start_ms ≠ 0 ∧
        (set_ice_transmission_state p now g pv s).1.gear.pending.change_physical_gear_start_ms ≠ 0)) ∧
    (∀ (i : TickInput) (s : IceSys),
       (s.gear.pending.stop_vehicle_start_ms ≠ 0 ∧
        s.gear.pending.change_physical_gear_start_ms ≠ 0) →
       ((update_gear p i s).gear.pending.stop_vehicle_start_ms = 0 ∨
        (update_gear p i s).gear.pending = s.gear.pending)) := by
  refine ⟨fun i s h => update_gear_no_overlap p i s h, fun now g pv s hz => ?_,
    fun now g pv s hsh hnow hne => ?_, fun i s hboth => update_gear_overlap_resolves p i s hboth⟩
  · intro hx
    rw [set_ice_shift_preserved] at hx
    exact hx.2 hz
  · rcases set_ice_pending_cases p now g pv s with hEq | hstop
    · exact absurd hEq hne
    · refine ⟨by rw [hstop]; omega, by rw [set_ice_shift_preserved]; exact hsh⟩

set_option maxRecDepth 40000 in
/-- Claim C8 (amended) witness: from an idle pending record a gear tick
creates no overlap. -/
theorem C8_phase_overlap_amended_witness :
    ¬((update_gear pX (inX 1000 0) sPark).gear.pending.stop_vehicle_start_ms ≠ 0 ∧
      (update_gear pX (inX 1000 0) sPark).gear.pending.change_physical_gear_start_ms ≠ 0) :=
  (C8_phase_overlap_amended pX).1 (inX 1000 0) sPark (by decide)
